import Mathlib

-- Shallow embedding of the proxy-pool, rate-limiter and batch-execution
-- subsystems of bot.py.  Machine time is modelled as Nat seconds; network
-- responses are inputs (an environment record), so every function here is a
-- pure translation of the Python control flow.

-- Configuration constants (config.py defaults, re-exported in bot.py).
def MAX_PROXY_FAILURES : Nat := 5

def PROXY_POOL_SIZE : Nat := 150

-- ProxyManager.PROXY_SOURCES (bot.py lines 231-236): four source URLs.
def PROXY_SOURCES : List String :=
  [ "https://www.proxy-list.download/api/v1/get?type=http"
  , "https://www.proxy-list.download/api/v1/get?type=socks4"
  , "https://www.proxy-list.download/api/v1/get?type=socks5"
  , "https://raw.githubusercontent.com/clarketm/proxy-list/master/proxy-list-raw.txt" ]

-- One entry of ProxyManager.proxies: the dict built in refresh_proxies
-- (bot.py lines 331-337).  Timestamps are Nat seconds.
structure ProxyEntry where
  proxy : String
  success_count : Nat
  fail_count : Nat
  last_used : Option Nat
  added_at : Nat
deriving Repr, DecidableEq

-- The mutable state of a ProxyManager (bot.py lines 238-245).
-- failed_proxies is a Python set of addresses; we model it as a
-- duplicate-free insertion list, membership being all that is ever used.
structure PoolState where
  proxies : List ProxyEntry
  failed_proxies : List String
  last_validation : Nat
  validation_interval : Nat
deriving Repr, DecidableEq

-- Python set.add: insert the address unless already present.
def addFailed (failed : List String) (addr : String) : List String :=
  if addr ∈ failed then failed else addr :: failed

-- The network environment: for each proxy-source URL, either none (request
-- raised or returned non-200) or the list of lines of the 200 response body
-- after strip/split; and the outcome of validate_proxy for each candidate
-- (validate_proxy, bot.py lines 293-319, is a sequence of probe requests
-- whose overall boolean result is determined by the network).
structure NetEnv where
  sourceResponse : String → Option (List String)
  validateOk : String → Bool

-- ProxyManager.scrape_proxies (bot.py lines 273-291): for each source, on a
-- 200 response extend the accumulator with the first 30 lines; on any error
-- skip the source.
def scrape_proxies (env : NetEnv) : List String :=
  PROXY_SOURCES.foldl
    (fun acc src =>
      match env.sourceResponse src with
      | some lines => acc ++ lines.take 30
      | none => acc)
    []

-- The entry dict appended by refresh_proxies for a validated candidate.
def mkEntry (now : Nat) (p : String) : ProxyEntry :=
  { proxy := p, success_count := 0, fail_count := 0, last_used := none, added_at := now }

-- The candidate loop of refresh_proxies (bot.py lines 328-339): keep a
-- candidate iff it is not permanently failed and validates; stop as soon as
-- the accumulator reaches PROXY_POOL_SIZE.
def refreshLoop (failed : List String) (env : NetEnv) (now : Nat) :
    List String → List ProxyEntry → List ProxyEntry
  | [], acc => acc
  | p :: rest, acc =>
    if p ∉ failed ∧ env.validateOk p then
      let acc' := acc ++ [mkEntry now p]
      if PROXY_POOL_SIZE ≤ acc'.length then acc'
      else refreshLoop failed env now rest acc'
    else refreshLoop failed env now rest acc

-- ProxyManager.refresh_proxies (bot.py lines 321-345): scrape, filter and
-- validate candidates, wholesale-replace the live collection, return the new
-- size.  (save_to_cache is file I/O and is elided; it does not touch state.)
def refresh_proxies (st : PoolState) (env : NetEnv) (now : Nat) : PoolState × Nat :=
  let valid := refreshLoop st.failed_proxies env now (scrape_proxies env) []
  ({ st with proxies := valid }, valid.length)

-- Python min(iterable, key=lambda p: p.fail_count): fold keeping the current
-- best, replacing it only on a strictly smaller key, so the first entry
-- attaining the minimum wins.
def minByFail (best : ProxyEntry) : List ProxyEntry → ProxyEntry
  | [] => best
  | p :: rest => minByFail (if p.fail_count < best.fail_count then p else best) rest

-- proxy['last_used'] = time.time() mutates the chosen dict inside the list;
-- the chosen dict is the first entry whose fail_count equals the minimum m.
def setLastUsed (m now : Nat) : List ProxyEntry → List ProxyEntry
  | [] => []
  | p :: rest =>
    if p.fail_count = m then { p with last_used := some now } :: rest
    else p :: setLastUsed m now rest

-- The selection step of get_random_proxy on a given live collection: None on
-- an empty list, otherwise the Python min over fail_count with its last_used
-- marked, returning the copied entry and the updated collection.
def select_core (ps : List ProxyEntry) (now : Nat) : Option ProxyEntry × List ProxyEntry :=
  match ps with
  | [] => (none, ps)
  | p :: rest =>
    let chosen := minByFail p rest
    (some { chosen with last_used := some now },
     setLastUsed chosen.fail_count now (p :: rest))

-- ProxyManager.get_random_proxy (bot.py lines 347-359), locks elided.
-- CAVEAT: the refresh-due branch is counterfactual — in the program that
-- branch re-acquires the pool's non-reentrant lock inside refresh_proxies
-- and never returns (see get_random_proxy_locked below, which models the
-- lock).  This lock-free version is therefore faithful only at inputs where
-- no inline refresh is due, and is used only at such inputs.
def get_random_proxy (st : PoolState) (now : Nat) (env : NetEnv) :
    Option ProxyEntry × PoolState :=
  let st :=
    if st.validation_interval < now - st.last_validation then
      let st' := (refresh_proxies st env now).1
      { st' with last_validation := now }
    else st
  let r := select_core st.proxies now
  (r.1, { st with proxies := r.2 })

-- ProxyManager.mark_success (bot.py lines 361-367): for every entry whose
-- address matches, increment success_count and decrement fail_count with a
-- floor of 0 (Nat subtraction is exactly max(0, x-1)).
def mark_success (st : PoolState) (addr : String) : PoolState :=
  { st with
    proxies := st.proxies.map fun p =>
      if p.proxy = addr then
        { p with success_count := p.success_count + 1, fail_count := p.fail_count - 1 }
      else p }

-- The body of ProxyManager.mark_failure's loop (bot.py lines 372-377): each
-- matching entry's fail_count is incremented, and when the new value reaches
-- MAX_PROXY_FAILURES the address is added to the failed set.  The entry is
-- NOT removed from the list.
def markFailureLoop (addr : String) :
    List ProxyEntry → List String → List ProxyEntry × List String
  | [], failed => ([], failed)
  | p :: rest, failed =>
    if p.proxy = addr then
      let p' := { p with fail_count := p.fail_count + 1 }
      let failed' :=
        if MAX_PROXY_FAILURES ≤ p'.fail_count then addFailed failed addr else failed
      let r := markFailureLoop addr rest failed'
      (p' :: r.1, r.2)
    else
      let r := markFailureLoop addr rest failed
      (p :: r.1, r.2)

-- ProxyManager.mark_failure (bot.py lines 369-377).
def mark_failure (st : PoolState) (addr : String) : PoolState :=
  let r := markFailureLoop addr st.proxies st.failed_proxies
  { st with proxies := r.1, failed_proxies := r.2 }

-- Comparison definition following the spec's words for refresh: keep every
-- candidate that is not permanently failed and validates, with NO
-- stop-at-target-size condition.  Used to state that the break in
-- refresh_proxies can never fire under the default configuration.
def refreshSelect (failed : List String) (env : NetEnv) (now : Nat) :
    List String → List ProxyEntry
  | [] => []
  | p :: rest =>
    if p ∉ failed ∧ env.validateOk p then
      mkEntry now p :: refreshSelect failed env now rest
    else refreshSelect failed env now rest

-- The observable counters of an entry: address, success_count, fail_count.
def entryStats (p : ProxyEntry) : String × Nat × Nat :=
  (p.proxy, p.success_count, p.fail_count)

-- ===========================================================================
-- RATE LIMITER (RateLimiter.check_rate_limit, bot.py lines 623-679)
-- ===========================================================================

-- The three configured ceilings (RATE_LIMIT_VISITS_PER_MINUTE / _HOUR / _DAY,
-- config.py lines 62-64; environment-configurable, defaults 15/150/1000).
structure RateLimits where
  perMinute : Nat
  perHour : Nat
  perDay : Nat
deriving Repr, DecidableEq

-- The rate_limits row for one user: the three counters actually read and
-- written by check_rate_limit.  (The schema also declares minute_reset,
-- hour_reset and day_reset TIMESTAMP columns, bot.py lines 446-455, but no
-- statement in the program ever reads or writes them.)
structure RateRow where
  minute_count : Nat
  hour_count : Nat
  day_count : Nat
deriving Repr, DecidableEq

-- RateLimiter.check_rate_limit (bot.py lines 623-679) for one user.  The
-- `now` argument models datetime.now(): the function computes minute_ago,
-- hour_ago and day_ago from it (lines 630-633) but never uses them, so the
-- result does not depend on `now`; no counter is ever reset.  A missing row
-- is inserted as (0, 0, 0) and the call returns (True, "OK") WITHOUT
-- incrementing; otherwise each counter is checked against its ceiling
-- (minute, hour, day, in that order) and on success all three are
-- incremented by one.
def check_rate_limit (lim : RateLimits) (row : Option RateRow) (now : Nat) :
    (Bool × String) × RateRow :=
  match row with
  | none => ((true, "OK"), ⟨0, 0, 0⟩)
  | some r =>
    if lim.perMinute ≤ r.minute_count then
      ((false, "Minute limit exceeded (" ++ toString r.minute_count ++ "/"
          ++ toString lim.perMinute ++ ")"), r)
    else if lim.perHour ≤ r.hour_count then
      ((false, "Hour limit exceeded (" ++ toString r.hour_count ++ "/"
          ++ toString lim.perHour ++ ")"), r)
    else if lim.perDay ≤ r.day_count then
      ((false, "Day limit exceeded (" ++ toString r.day_count ++ "/"
          ++ toString lim.perDay ++ ")"), r)
    else
      ((true, "OK"), ⟨r.minute_count + 1, r.hour_count + 1, r.day_count + 1⟩)

-- A sequence of admission checks for one user at the given wall-clock
-- instants, threading the stored row; returns the last call's verdict and
-- the final row.
def rl_run (lim : RateLimits) (times : List Nat) (row : Option RateRow) :
    (Bool × String) × Option RateRow :=
  times.foldl
    (fun acc t =>
      let r := check_rate_limit lim acc.2 t
      (r.1, some r.2))
    ((true, "OK"), row)

-- ===========================================================================
-- BATCH EXECUTION ENGINE (YouTubeViewSimulator, bot.py lines 685-788)
-- ===========================================================================

-- The results dict of simulate_views_batch (bot.py lines 760-765).
structure BatchResult where
  total : Nat
  successful : Nat
  failed : Nat
  errors : List String
deriving Repr, DecidableEq

-- Outcome of the single outbound view request of simulate_view: either a
-- response with a status code, or a raised exception with its message
-- str(e).  Determined by the network, hence an input.
inductive ViewResponse where
  | status : Nat → ViewResponse
  | exc : String → ViewResponse
deriving Repr, DecidableEq

-- State of one submitted future when the batch deadline is reached: either
-- it completed with simulate_view's (success, message) pair before the
-- deadline, or it is still outstanding.
inductive FutureStatus where
  | done : Bool × String → FutureStatus
  | pending : FutureStatus
deriving Repr, DecidableEq

-- as_completed(futures, timeout=THREAD_POOL_TIMEOUT) raising TimeoutError:
-- the exception escapes simulate_views_batch, so the batch produces no
-- results dict.
inductive BatchAbort where
  | futuresTimeout : BatchAbort
deriving Repr, DecidableEq

def isPending : FutureStatus → Bool
  | FutureStatus.pending => true
  | FutureStatus.done _ => false

def futResult : FutureStatus → Option (Bool × String)
  | FutureStatus.done r => some r
  | FutureStatus.pending => none

-- One iteration of the aggregation loop on a completed future's result.
def batchStep (acc : BatchResult) (r : Bool × String) : BatchResult :=
  if r.1 then { acc with successful := acc.successful + 1 }
  else { acc with failed := acc.failed + 1, errors := acc.errors ++ [r.2] }

-- The aggregation loop of simulate_views_batch (bot.py lines 773-786) over
-- the futures' eventual states.  as_completed yields each future that
-- completes before the deadline; for those, future.result() returns the
-- (success, message) pair without raising (simulate_view catches all its
-- exceptions), so the inner `except FuturesTimeoutError` and `except
-- Exception` arms never fire.  If any future is still outstanding when the
-- deadline elapses, as_completed raises TimeoutError AT THE GENERATOR — a
-- point outside the try block, which wraps only future.result() — so the
-- exception propagates out of simulate_views_batch and no results dict is
-- returned.
def simulate_views_batch_collect (view_count : Nat) (futs : List FutureStatus) :
    Except BatchAbort BatchResult :=
  let init : BatchResult := ⟨view_count, 0, 0, []⟩
  let res := (futs.filterMap futResult).foldl batchStep init
  if futs.any isPending then Except.error BatchAbort.futuresTimeout
  else Except.ok res

-- ===========================================================================
-- LOCK-INSTRUMENTED MODEL (for the locking discipline of ProxyManager)
-- ===========================================================================

-- ProxyManager.lock is threading.Lock() (bot.py line 241), which is NOT
-- reentrant: acquiring it while the same thread already holds it blocks
-- forever.  We instrument the two relevant methods with an explicit
-- lock-held flag; `none` means the call never completes (self-deadlock).
-- Each network request performed is recorded as an event tagged with
-- whether the pool lock was held at that moment.
inductive NetEvent where
  | scrapeCall : Bool → NetEvent
  | validateCall : String → Bool → NetEvent
deriving Repr, DecidableEq

def evLockHeld : NetEvent → Bool
  | NetEvent.scrapeCall h => h
  | NetEvent.validateCall _ h => h

-- refreshLoop, emitting one validateCall event per candidate on which
-- validate_proxy is actually invoked (the Python `and` short-circuits: a
-- permanently-failed candidate is skipped without a validation request).
def refreshLoopTraced (failed : List String) (env : NetEnv) (now : Nat)
    (lockHeld : Bool) :
    List String → List ProxyEntry → List ProxyEntry × List NetEvent
  | [], acc => (acc, [])
  | p :: rest, acc =>
    if p ∉ failed then
      if env.validateOk p then
        let acc' := acc ++ [mkEntry now p]
        if PROXY_POOL_SIZE ≤ acc'.length then (acc', [NetEvent.validateCall p lockHeld])
        else
          let r := refreshLoopTraced failed env now lockHeld rest acc'
          (r.1, NetEvent.validateCall p lockHeld :: r.2)
      else
        let r := refreshLoopTraced failed env now lockHeld rest acc
        (r.1, NetEvent.validateCall p lockHeld :: r.2)
    else
      refreshLoopTraced failed env now lockHeld rest acc

-- refresh_proxies with the lock made explicit: the entire body, including
-- the scrape and every validation request, runs inside `with self.lock`
-- (bot.py line 323).  If the caller already holds the lock, the acquire
-- blocks forever: result none.
def refresh_proxies_locked (lockHeld : Bool) (st : PoolState) (env : NetEnv)
    (now : Nat) : Option ((PoolState × Nat) × List NetEvent) :=
  if lockHeld then none
  else
    let r := refreshLoopTraced st.failed_proxies env now true (scrape_proxies env) []
    some (({ st with proxies := r.1 }, r.1.length), NetEvent.scrapeCall true :: r.2)

-- get_random_proxy with the lock made explicit (bot.py lines 347-359): the
-- body runs under `with self.lock`, and when the validation interval has
-- elapsed it calls refresh_proxies — which tries to acquire the same
-- non-reentrant lock again.
def get_random_proxy_locked (lockHeld : Bool) (st : PoolState) (now : Nat)
    (env : NetEnv) : Option ((Option ProxyEntry × PoolState) × List NetEvent) :=
  if lockHeld then none
  else
    let inner : Option (PoolState × List NetEvent) :=
      if st.validation_interval < now - st.last_validation then
        match refresh_proxies_locked true st env now with
        | none => none
        | some (r, evs) => some ({ r.1 with last_validation := now }, evs)
      else some (st, [])
    match inner with
    | none => none
    | some (st, evs) =>
      let r := select_core st.proxies now
      some ((r.1, { st with proxies := r.2 }), evs)

-- YouTubeViewSimulator.simulate_view (bot.py lines 715-756) with the pool
-- lock modelled.  `videoId` is the result of extract_video_id on the URL (a
-- pure regex scan); `vr` maps the selected proxy address to the outcome of
-- the request issued through it.  A `none` task result means the task never
-- completes: its get_random_proxy call self-deadlocked (the inline refresh
-- re-acquired the held pool lock) and the task blocks forever.  On status
-- 200 the proxy is marked successful (the dwell sleep is elided: it changes
-- no state); on any other status or exception it is marked failed.
def simulate_view_locked (videoId : Option String) (st : PoolState) (now : Nat)
    (env : NetEnv) (vr : String → ViewResponse) :
    Option ((Bool × String) × PoolState) :=
  match videoId with
  | none => some ((false, "Invalid YouTube URL"), st)
  | some _ =>
    match get_random_proxy_locked false st now env with
    | none => none
    | some ((none, st'), _) => some ((false, "No available proxies"), st')
    | some ((some p, st'), _) =>
      match vr p.proxy with
      | ViewResponse.status 200 =>
        some ((true, "View simulated successfully"), mark_success st' p.proxy)
      | ViewResponse.status code =>
        some ((false, "HTTP " ++ toString code), mark_failure st' p.proxy)
      | ViewResponse.exc e =>
        some ((false, e), mark_failure st' p.proxy)

-- The eventual states of the `count` submitted futures at the batch
-- deadline, threading the pool state through the tasks (the pool lock
-- serialises every state access).  A task that deadlocks holds the pool
-- lock forever, so it and every remaining task are still pending when the
-- deadline elapses.
def run_batch_futures (videoId : Option String) (count : Nat) (st : PoolState)
    (now : Nat) (env : NetEnv) (vr : String → ViewResponse) :
    List FutureStatus × PoolState :=
  match count with
  | 0 => ([], st)
  | n + 1 =>
    match simulate_view_locked videoId st now env vr with
    | none => (List.replicate (n + 1) FutureStatus.pending, st)
    | some (res, st') =>
      let rest := run_batch_futures videoId n st' now env vr
      (FutureStatus.done res :: rest.1, rest.2)

-- YouTubeViewSimulator.simulate_views_batch (bot.py lines 758-788): submit
-- count tasks, then run the aggregation loop over the futures' states at
-- the deadline (raising out of the function if any is still pending).
def simulate_views_batch (videoId : Option String) (view_count : Nat)
    (st : PoolState) (now : Nat) (env : NetEnv) (vr : String → ViewResponse) :
    Except BatchAbort BatchResult × PoolState :=
  let r := run_batch_futures videoId view_count st now env vr
  (simulate_views_batch_collect view_count r.1, r.2)

-- ===========================================================================
-- CONCRETE INSTANCES used by counterexamples and witnesses
-- ===========================================================================

-- An environment in which every proxy-source request fails: no candidates.
def envNone : NetEnv := ⟨fun _ => none, fun _ => false⟩

-- An environment in which every source returns one candidate line and every
-- candidate validates.
def envOne : NetEnv := ⟨fun _ => some ["1.1.1.1:80"], fun _ => true⟩

-- An environment in which every source returns the candidates a:1 and b:2,
-- all validating.
def envTwo : NetEnv := ⟨fun _ => some ["a:1", "b:2"], fun _ => true⟩

-- The ceilings of the spec's worked admission example: minute=2, hour=5,
-- day=10.
def lims2510 : RateLimits := ⟨2, 5, 10⟩

-- A pool holding one live proxy one failure short of the permanent ceiling;
-- the last validation just happened, so no inline refresh is due at time 5.
def stC1 : PoolState :=
  ⟨[⟨"185.0.0.1:8080", 0, 4, none, 0⟩], [], 5, 100⟩

-- A pool holding one live proxy with fail_count 0.
def stC7 : PoolState := ⟨[⟨"p:1", 0, 0, none, 0⟩], [], 0, 100⟩

-- A pool with two live proxies, used for frame-condition witnesses.
def stW9 : PoolState :=
  ⟨[⟨"a:1", 2, 1, none, 0⟩, ⟨"b:2", 0, 3, some 4, 0⟩], ["c:3"], 0, 100⟩

-- A pool whose failed set already holds a:1.
def stWF : PoolState := ⟨[], ["a:1"], 0, 10⟩

-- An empty pool whose last validation is recent (no refresh due at 5).
def stEmpty : PoolState := ⟨[], [], 0, 10⟩

-- A pool whose validation interval (10) has elapsed at time 100.
def stDue : PoolState := ⟨[], [], 0, 10⟩

-- A NON-empty pool whose validation interval (10) has elapsed at time 100.
def stC5x : PoolState := ⟨[⟨"p:1", 2, 3, none, 0⟩], [], 0, 10⟩

-- The spec's worked selection example: fail-counts [3, 1, 5, 1]; the last
-- validation just happened, so no refresh is due at time 100.
def e3 : ProxyEntry := ⟨"a", 0, 3, none, 0⟩
def e1 : ProxyEntry := ⟨"b", 0, 1, none, 0⟩
def e5 : ProxyEntry := ⟨"c", 0, 5, none, 0⟩
def e1b : ProxyEntry := ⟨"d", 0, 1, none, 0⟩
def stP : PoolState := ⟨[e3, e1, e5, e1b], [], 100, 50⟩

-- ===========================================================================
-- THEOREMS
-- ===========================================================================

/-- C2 (counter-evidence): check_rate_limit never resets any window counter,
whatever wall-clock time elapses.  With ceilings minute=2, hour=5, day=10 and
calls at t = 0, 10, 20 s the fourth call at t = 30 s is denied on the minute
window; a further call at t = 100 s — more than the 60-second minute window
after the last activity — is still denied with the same message, where the
claim says it must be allowed again.  (The function reads datetime.now() into
minute_ago/hour_ago/day_ago and the schema has minute_reset/hour_reset/
day_reset columns, but none of them is ever used: the result is independent
of the `now` argument.) -/
theorem c2_no_window_reset :
    (rl_run lims2510 [0, 10, 20, 30] none).1
      = (false, "Minute limit exceeded (2/2)") ∧
    (rl_run lims2510 [0, 10, 20, 30, 100] none).1
      = (false, "Minute limit exceeded (2/2)") ∧
    60 < 100 - 30 ∧
    (∀ lim row t t', check_rate_limit lim row t = check_rate_limit lim row t') := by
  refine ⟨by decide, by decide, by decide, ?_⟩
  intro lim row t t'
  rfl

/-- C4 (counterexample): with ceilings minute=2, hour=5, day=10, the third
call within the same minute returns Allowed (true, "OK"), not the Denied the
claim requires — the first-observation path inserts the row as (0,0,0) and
returns without incrementing. -/
theorem c4_counterexample :
    (rl_run lims2510 [0, 10, 20] none).1 = (true, "OK") := by decide

/-- C4 (amended): on first observation the counters are initialized to zero
and the call returns Allowed WITHOUT incrementing them; every later call that
returns Allowed increments all three counters by exactly one as a single
step; hence with ceilings minute=2, hour=5, day=10 the 1st, 2nd and 3rd calls
within a minute return Allowed and the 4th returns Denied citing the minute
window with its current/ceiling values. -/
theorem c4_amended :
    (∀ lim now, check_rate_limit lim none now = ((true, "OK"), ⟨0, 0, 0⟩)) ∧
    (∀ lim : RateLimits, ∀ r : RateRow, ∀ now,
      r.minute_count < lim.perMinute → r.hour_count < lim.perHour →
      r.day_count < lim.perDay →
      check_rate_limit lim (some r) now =
        ((true, "OK"), ⟨r.minute_count + 1, r.hour_count + 1, r.day_count + 1⟩)) ∧
    (rl_run lims2510 [0, 10, 20] none).1 = (true, "OK") ∧
    (rl_run lims2510 [0, 10, 20, 30] none).1
      = (false, "Minute limit exceeded (2/2)") := by
  refine ⟨fun lim now => rfl, ?_, by decide, by decide⟩
  intro lim r now h1 h2 h3
  simp [check_rate_limit, Nat.not_le.mpr h1, Nat.not_le.mpr h2, Nat.not_le.mpr h3]

/-- C4 (witness): the amended theorem at ceilings (2,5,10) and row (1,1,1). -/
theorem c4_amended_witness :
    check_rate_limit lims2510 (some ⟨1, 1, 1⟩) 7 = ((true, "OK"), ⟨2, 2, 2⟩) :=
  c4_amended.2.1 lims2510 ⟨1, 1, 1⟩ 7 (by decide) (by decide) (by decide)

/-- C1 (counterexample): a proxy whose fail_count reaches MAX_PROXY_FAILURES
via mark_failure is added to failed_proxies but is NOT removed from the live
collection, and a subsequent get_random_proxy (no refresh due) still returns
it, so the live collection and the permanently-failed set intersect. -/
theorem c1_counterexample :
    "185.0.0.1:8080" ∈ (mark_failure stC1 "185.0.0.1:8080").failed_proxies ∧
    (mark_failure stC1 "185.0.0.1:8080").proxies.map ProxyEntry.proxy
      = ["185.0.0.1:8080"] ∧
    ((get_random_proxy (mark_failure stC1 "185.0.0.1:8080") 5 envNone).1.map
        ProxyEntry.proxy) = some "185.0.0.1:8080" := by
  decide

/-- C7 (counterexample): starting from fail_count 0, mark_success followed by
mark_failure on the same address leaves fail_count at 1, not at its
pre-success value 0 (the decrement is floored at 0, the increment is not). -/
theorem c7_counterexample :
    stC7.proxies.map ProxyEntry.fail_count = [0] ∧
    (mark_failure (mark_success stC7 "p:1") "p:1").proxies.map
        ProxyEntry.fail_count = [1] ∧
    ([1] : List Nat) ≠ [0] := by
  decide

/-- C3 (code evaluation): when any future is still outstanding at the batch
deadline, as_completed raises TimeoutError at the generator — outside the try
block, which wraps only future.result() — so simulate_views_batch propagates
the exception and produces NO results dict (the outstanding tasks are not
counted as failed with reason "timeout"); by contrast a completed failed
attempt never aborts the batch, it only bumps the aggregate counts and the
error list. -/
theorem c3_timeout_aborts_batch :
    simulate_views_batch_collect 3
        [FutureStatus.done (false, "HTTP 403"),
         FutureStatus.done (true, "View simulated successfully"),
         FutureStatus.pending]
      = Except.error BatchAbort.futuresTimeout ∧
    simulate_views_batch_collect 2
        [FutureStatus.done (false, "HTTP 403"),
         FutureStatus.done (true, "View simulated successfully")]
      = Except.ok ⟨2, 1, 1, ["HTTP 403"]⟩ :=
  ⟨rfl, rfl⟩

/-- C8 (code evaluation): the validation interval of stDue (10 s) has elapsed
at time 100, so get_random_proxy takes its inline-refresh branch while
holding the pool's non-reentrant lock; refresh_proxies then tries to acquire
the same lock and the call never completes (deadlock, result none) — the
inline refresh does NOT complete.  Moreover every network request a refresh
performs (the scrape and each candidate validation) happens with the pool
lock held: the lock is not taken only to swap in the final collection. -/
theorem c8_lock_held_across_network :
    stDue.validation_interval < 100 - stDue.last_validation ∧
    get_random_proxy_locked false stDue 100 envOne = none ∧
    refresh_proxies_locked true stDue envOne 100 = none ∧
    (refresh_proxies_locked false stDue envOne 100).map
        (fun r => r.2.map evLockHeld)
      = some [true, true, true, true, true] := by
  decide

-- Helper: the first component of mark_failure's loop is a pointwise map that
-- increments the matching entries' fail_count.
theorem markFailureLoop_fst (addr : String) :
    ∀ (l : List ProxyEntry) (failed : List String),
      (markFailureLoop addr l failed).1
        = l.map (fun p =>
            if p.proxy = addr then { p with fail_count := p.fail_count + 1 } else p) := by
  intro l
  induction l with
  | nil => intro failed; rfl
  | cons p rest ih =>
    intro failed
    by_cases h : p.proxy = addr
    · simp [markFailureLoop, h, ih]
    · simp [markFailureLoop, h, ih]

-- Helper: mark_failure's loop leaves both components untouched when no entry
-- matches the address.
theorem markFailureLoop_no_match (addr : String) :
    ∀ (l : List ProxyEntry) (failed : List String),
      (∀ p ∈ l, p.proxy ≠ addr) → markFailureLoop addr l failed = (l, failed) := by
  intro l
  induction l with
  | nil => intro failed _; rfl
  | cons p rest ih =>
    intro failed h
    have hp : ¬ p.proxy = addr := h p (List.mem_cons_self p rest)
    simp only [markFailureLoop, if_neg hp,
      ih failed (fun q hq => h q (List.mem_cons_of_mem p hq))]

-- Helper: every entry produced by the no-break candidate selection is fresh
-- (zero counters) and its address is outside the permanently-failed set.
theorem refreshSelect_mem (failed : List String) (env : NetEnv) (now : Nat) :
    ∀ (cands : List String) (e : ProxyEntry),
      e ∈ refreshSelect failed env now cands →
        e.proxy ∉ failed ∧ e.success_count = 0 ∧ e.fail_count = 0 := by
  intro cands
  induction cands with
  | nil => intro e h; simp [refreshSelect] at h
  | cons p rest ih =>
    intro e h
    by_cases hp : p ∉ failed ∧ env.validateOk p
    · rw [refreshSelect, if_pos hp] at h
      rcases List.mem_cons.mp h with h1 | h1
      · subst h1; exact ⟨hp.1, rfl, rfl⟩
      · exact ih e h1
    · rw [refreshSelect, if_neg hp] at h
      exact ih e h

-- Helper: the selection keeps at most one entry per candidate.
theorem refreshSelect_length (failed : List String) (env : NetEnv) (now : Nat) :
    ∀ (cands : List String),
      (refreshSelect failed env now cands).length ≤ cands.length := by
  intro cands
  induction cands with
  | nil => simp [refreshSelect]
  | cons p rest ih =>
    by_cases hp : p ∉ failed ∧ env.validateOk p
    · rw [refreshSelect, if_pos hp]
      simpa using Nat.succ_le_succ ih
    · rw [refreshSelect, if_neg hp]
      exact Nat.le_succ_of_le ih

-- Helper: as long as the accumulator cannot reach PROXY_POOL_SIZE, the
-- candidate loop of refresh_proxies coincides with the break-free selection.
theorem refreshLoop_eq_select (failed : List String) (env : NetEnv) (now : Nat) :
    ∀ (cands : List String) (acc : List ProxyEntry),
      acc.length + cands.length < PROXY_POOL_SIZE →
      refreshLoop failed env now cands acc
        = acc ++ refreshSelect failed env now cands := by
  intro cands
  induction cands with
  | nil => intro acc h; simp [refreshLoop, refreshSelect]
  | cons p rest ih =>
    intro acc h
    simp only [List.length_cons] at h
    by_cases hp : p ∉ failed ∧ env.validateOk p
    · have hb : ¬ PROXY_POOL_SIZE ≤ (acc ++ [mkEntry now p]).length := by
        simp only [List.length_append, List.length_singleton]
        omega
      rw [refreshLoop, if_pos hp]
      simp only [if_neg hb]
      rw [ih (acc ++ [mkEntry now p])
        (by simp only [List.length_append, List.length_singleton]; omega)]
      rw [refreshSelect, if_pos hp]
      simp [List.append_assoc]
    · rw [refreshLoop, if_neg hp, refreshSelect, if_neg hp]
      exact ih acc (by omega)

-- Helper: scraping takes at most 30 candidates from each of the 4 sources.
theorem scrape_proxies_length (env : NetEnv) : (scrape_proxies env).length ≤ 120 := by
  have hstep : ∀ (acc : List String) (src : String),
      (match env.sourceResponse src with
       | some lines => acc ++ lines.take 30
       | none => acc).length ≤ acc.length + 30 := by
    intro acc src
    cases env.sourceResponse src with
    | none => simp
    | some lines =>
      simp only [List.length_append]
      have := List.length_take_le 30 lines
      omega
  have hfold : ∀ (srcs : List String) (init : List String),
      (srcs.foldl (fun acc src =>
        match env.sourceResponse src with
        | some lines => acc ++ lines.take 30
        | none => acc) init).length ≤ init.length + 30 * srcs.length := by
    intro srcs
    induction srcs with
    | nil => intro init; simp
    | cons s rest ih =>
      intro init
      simp only [List.foldl_cons, List.length_cons]
      have h1 := hstep init s
      have h2 := ih (match env.sourceResponse s with
        | some lines => init ++ lines.take 30
        | none => init)
      omega
  have h := hfold PROXY_SOURCES []
  simpa [PROXY_SOURCES] using h

/-- C1 (amended): when failCount reaches MAX_PROXY_FAILURES via mark_failure,
the address is added to the permanently-failed set but is NOT removed from
the live collection — mark_failure never changes the address list — and it
can still be returned by get_random_proxy until the next refresh; a
refresh() excludes every permanently-failed address from the rebuilt
collection, so the disjointness of live collection and failed set is
restored by (and only by) a refresh. -/
theorem c1_amended :
    (∀ (st : PoolState) (addr : String),
      (mark_failure st addr).proxies.map ProxyEntry.proxy
        = st.proxies.map ProxyEntry.proxy) ∧
    (∀ (st : PoolState) (env : NetEnv) (now : Nat),
      ∀ e ∈ (refresh_proxies st env now).1.proxies, e.proxy ∉ st.failed_proxies) := by
  constructor
  · intro st addr
    show (markFailureLoop addr st.proxies st.failed_proxies).1.map ProxyEntry.proxy = _
    rw [markFailureLoop_fst, List.map_map]
    apply List.map_congr_left
    intro p _
    by_cases h : p.proxy = addr
    · simp [h]
    · simp [h]
  · intro st env now e he
    have hlen : ([] : List ProxyEntry).length + (scrape_proxies env).length
        < PROXY_POOL_SIZE := by
      have := scrape_proxies_length env
      simp only [List.length_nil]
      have h150 : PROXY_POOL_SIZE = 150 := rfl
      omega
    have heq : (refresh_proxies st env now).1.proxies
        = refreshSelect st.failed_proxies env now (scrape_proxies env) := by
      show refreshLoop st.failed_proxies env now (scrape_proxies env) [] = _
      rw [refreshLoop_eq_select st.failed_proxies env now (scrape_proxies env) [] hlen]
      rfl
    rw [heq] at he
    exact (refreshSelect_mem st.failed_proxies env now (scrape_proxies env) e he).1

/-- C1 (witness): the amended theorem applied to a concrete pool and
environment — mark_failure on a two-entry pool preserves the address list,
and the entry a refresh builds from candidate b:2 has its address outside
the pre-refresh failed set containing a:1. -/
theorem c1_amended_witness :
    (mark_failure stW9 "a:1").proxies.map ProxyEntry.proxy
      = stW9.proxies.map ProxyEntry.proxy ∧
    (mkEntry 7 "b:2").proxy ∉ stWF.failed_proxies :=
  ⟨c1_amended.1 stW9 "a:1",
   c1_amended.2 stWF envTwo 7 (mkEntry 7 "b:2") (by decide)⟩

/-- C7 (amended): mark_success increments successCount by one and decrements
failCount by one with a floor of 0 on every matching live entry; a
mark_success immediately followed by a mark_failure on the same address
leaves each matching entry's failCount at max 1 (its value before the
success) — i.e. restores it exactly when it was at least 1, and raises it
from 0 to 1 (the decrement is floored, the increment is not); other entries
are untouched. -/
theorem c7_amended :
    ∀ (st : PoolState) (addr : String),
      (mark_success st addr).proxies.map entryStats
        = st.proxies.map (fun p =>
            if p.proxy = addr then (p.proxy, p.success_count + 1, p.fail_count - 1)
            else entryStats p) ∧
      (mark_failure (mark_success st addr) addr).proxies.map entryStats
        = st.proxies.map (fun p =>
            if p.proxy = addr then (p.proxy, p.success_count + 1, max 1 p.fail_count)
            else entryStats p) := by
  intro st addr
  constructor
  · show (st.proxies.map _).map entryStats = _
    rw [List.map_map]
    apply List.map_congr_left
    intro p _
    by_cases h : p.proxy = addr
    · simp [h, entryStats]
    · simp [h, entryStats]
  · show (markFailureLoop addr (st.proxies.map _) _).1.map entryStats = _
    rw [markFailureLoop_fst, List.map_map, List.map_map]
    apply List.map_congr_left
    intro p _
    by_cases h : p.proxy = addr
    · simp only [Function.comp, h, if_pos, entryStats]
      simp [h]
      omega
    · simp [Function.comp, h, entryStats]

/-- C9: marking success or failure for an address absent from the live
collection is a silent no-op — the whole pool state (entries, counters and
permanently-failed set) is returned unchanged. -/
theorem c9_unknown_address_noop :
    ∀ (st : PoolState) (addr : String),
      addr ∉ st.proxies.map ProxyEntry.proxy →
      mark_success st addr = st ∧ mark_failure st addr = st := by
  intro st addr h
  have hne : ∀ p ∈ st.proxies, p.proxy ≠ addr := by
    intro p hp heq
    exact h (heq ▸ List.mem_map_of_mem ProxyEntry.proxy hp)
  constructor
  · show { st with proxies := st.proxies.map _ } = st
    have : st.proxies.map (fun p =>
        if p.proxy = addr then
          { p with success_count := p.success_count + 1, fail_count := p.fail_count - 1 }
        else p) = st.proxies := by
      conv_rhs => rw [← List.map_id st.proxies]
      apply List.map_congr_left
      intro p hp
      simp [if_neg (hne p hp)]
    rw [this]
  · show { st with
        proxies := (markFailureLoop addr st.proxies st.failed_proxies).1,
        failed_proxies := (markFailureLoop addr st.proxies st.failed_proxies).2 } = st
    rw [markFailureLoop_no_match addr st.proxies st.failed_proxies hne]

/-- C9 (witness): the no-op theorem at a concrete pool and the absent
address z:9. -/
theorem c9_witness :
    mark_success stW9 "z:9" = stW9 ∧ mark_failure stW9 "z:9" = stW9 :=
  c9_unknown_address_noop stW9 "z:9" (by decide)

-- Helper: the Python-min fold splits over list concatenation.
theorem minByFail_append (best : ProxyEntry) (l l' : List ProxyEntry) :
    minByFail best (l ++ l') = minByFail (minByFail best l) l' := by
  induction l generalizing best with
  | nil => rfl
  | cons p rest ih =>
    simp only [List.cons_append, minByFail]
    exact ih _

-- Helper: the fold keeps its seed when nothing beats it strictly.
theorem minByFail_of_le (best : ProxyEntry) :
    ∀ (l : List ProxyEntry), (∀ q ∈ l, best.fail_count ≤ q.fail_count) →
      minByFail best l = best := by
  intro l
  induction l with
  | nil => intro _; rfl
  | cons p rest ih =>
    intro h
    have hp : ¬ p.fail_count < best.fail_count :=
      not_lt.mpr (h p (List.mem_cons_self p rest))
    simp only [minByFail, if_neg hp]
    exact ih (fun q hq => h q (List.mem_cons_of_mem p hq))

-- Helper: the fold's result is the seed or a list element.
theorem minByFail_mem :
    ∀ (l : List ProxyEntry) (best : ProxyEntry),
      minByFail best l = best ∨ minByFail best l ∈ l := by
  intro l
  induction l with
  | nil => intro best; exact Or.inl rfl
  | cons p rest ih =>
    intro best
    simp only [minByFail]
    by_cases h : p.fail_count < best.fail_count
    · rw [if_pos h]
      rcases ih p with h1 | h1
      · exact Or.inr (by rw [h1]; exact List.mem_cons_self p rest)
      · exact Or.inr (List.mem_cons_of_mem p h1)
    · rw [if_neg h]
      rcases ih best with h1 | h1
      · exact Or.inl h1
      · exact Or.inr (List.mem_cons_of_mem p h1)

-- Helper: when p strictly beats everything before it and weakly beats
-- everything after it, the Python min of the whole list is p.
theorem minByFail_first (p a : ProxyEntry) (t l₂ : List ProxyEntry)
    (h1 : ∀ q ∈ a :: t, p.fail_count < q.fail_count)
    (h2 : ∀ q ∈ l₂, p.fail_count ≤ q.fail_count) :
    minByFail a (t ++ p :: l₂) = p := by
  rw [minByFail_append]
  have hbmem := minByFail_mem t a
  have hpb : p.fail_count < (minByFail a t).fail_count := by
    rcases hbmem with h | h
    · rw [h]; exact h1 a (List.mem_cons_self a t)
    · exact h1 (minByFail a t) (List.mem_cons_of_mem a h)
  show minByFail (minByFail a t) (p :: l₂) = p
  simp only [minByFail, if_pos hpb]
  exact minByFail_of_le p l₂ h2

-- Helper: marking last_used at the minimum value updates exactly the first
-- entry attaining it.
theorem setLastUsed_first (now : Nat) (p : ProxyEntry) :
    ∀ (l₁ : List ProxyEntry) (l₂ : List ProxyEntry),
      (∀ q ∈ l₁, p.fail_count < q.fail_count) →
      setLastUsed p.fail_count now (l₁ ++ p :: l₂)
        = l₁ ++ { p with last_used := some now } :: l₂ := by
  intro l₁
  induction l₁ with
  | nil => intro l₂ _; simp [setLastUsed]
  | cons a t ih =>
    intro l₂ h
    have hne : ¬ a.fail_count = p.fail_count := by
      have := h a (List.mem_cons_self a t)
      omega
    simp only [List.cons_append, setLastUsed, if_neg hne]
    exact congrArg (fun x => a :: x) (ih l₂ (fun q hq => h q (List.mem_cons_of_mem a hq)))

-- Helper: the selection step on a list whose first minimum is p.
theorem select_core_first_min (now : Nat) (l₁ : List ProxyEntry) (p : ProxyEntry)
    (l₂ : List ProxyEntry)
    (h1 : ∀ q ∈ l₁, p.fail_count < q.fail_count)
    (h2 : ∀ q ∈ l₂, p.fail_count ≤ q.fail_count) :
    select_core (l₁ ++ p :: l₂) now
      = (some { p with last_used := some now },
         l₁ ++ { p with last_used := some now } :: l₂) := by
  cases l₁ with
  | nil =>
    show select_core (p :: l₂) now = _
    simp only [select_core, List.nil_append]
    rw [minByFail_of_le p l₂ h2]
    simp [setLastUsed]
  | cons a t =>
    show select_core (a :: (t ++ p :: l₂)) now = _
    simp only [select_core]
    rw [minByFail_first p a t l₂ h1 h2]
    have := setLastUsed_first now p (a :: t) l₂ h1
    simp only [List.cons_append] at this ⊢
    rw [this]

-- Helper: aggregating a run of identical failures.
theorem batchStep_fold_replicate (msg : String) :
    ∀ (n : Nat) (acc : BatchResult),
      (List.replicate n (false, msg)).foldl batchStep acc
        = ⟨acc.total, acc.successful, acc.failed + n,
           acc.errors ++ List.replicate n msg⟩ := by
  intro n
  induction n with
  | zero => intro acc; cases acc; simp
  | succ m ih =>
    intro acc
    rw [List.replicate_succ, List.foldl_cons]
    rw [ih (batchStep acc (false, msg))]
    show (⟨acc.total, acc.successful, acc.failed + 1 + m,
           (acc.errors ++ [msg]) ++ List.replicate m msg⟩ : BatchResult) = _
    rw [List.append_assoc, List.replicate_succ]
    congr 1
    omega

-- Helper: extracting the results of completed futures undoes the wrapping.
theorem filterMap_futResult_done (l : List (Bool × String)) :
    (l.map FutureStatus.done).filterMap futResult = l := by
  induction l with
  | nil => rfl
  | cons a t ih => simp [List.filterMap_cons, futResult, ih]

-- Helper: a list of completed futures contains no pending one.
theorem any_isPending_done (l : List (Bool × String)) :
    (l.map FutureStatus.done).any isPending = false := by
  induction l with
  | nil => rfl
  | cons a t ih => simp [isPending, ih]

/-- C10: for every network environment, scrape_proxies yields at most 120
candidates (at most 30 from each of the 4 sources), so after any
refresh_proxies the live collection has at most 120 entries; the
stop-at-target-size break (PROXY_POOL_SIZE = 150) can never fire — the loop
result equals the break-free selection — and every entry of the new
collection starts with success_count = 0 and fail_count = 0. -/
theorem c10_refresh_bounded :
    ∀ (st : PoolState) (env : NetEnv) (now : Nat),
      (scrape_proxies env).length ≤ 120 ∧
      (refresh_proxies st env now).1.proxies
        = refreshSelect st.failed_proxies env now (scrape_proxies env) ∧
      (refresh_proxies st env now).1.proxies.length ≤ 120 ∧
      ∀ e ∈ (refresh_proxies st env now).1.proxies,
        e.success_count = 0 ∧ e.fail_count = 0 := by
  intro st env now
  have hs := scrape_proxies_length env
  have hlen : ([] : List ProxyEntry).length + (scrape_proxies env).length
      < PROXY_POOL_SIZE := by
    simp only [List.length_nil]
    have h150 : PROXY_POOL_SIZE = 150 := rfl
    omega
  have heq : (refresh_proxies st env now).1.proxies
      = refreshSelect st.failed_proxies env now (scrape_proxies env) := by
    show refreshLoop st.failed_proxies env now (scrape_proxies env) [] = _
    rw [refreshLoop_eq_select st.failed_proxies env now (scrape_proxies env) [] hlen]
    rfl
  refine ⟨hs, heq, ?_, ?_⟩
  · rw [heq]
    exact le_trans (refreshSelect_length st.failed_proxies env now (scrape_proxies env)) hs
  · intro e he
    rw [heq] at he
    exact (refreshSelect_mem st.failed_proxies env now (scrape_proxies env) e he).2

/-- C10 (witness): the bound theorem applied to a concrete refresh — the
entry built from candidate b:2 is present in the refreshed pool and starts
with zero counters. -/
theorem c10_witness :
    (mkEntry 7 "b:2").success_count = 0 ∧ (mkEntry 7 "b:2").fail_count = 0 :=
  (c10_refresh_bounded stWF envTwo 7).2.2.2 (mkEntry 7 "b:2") (by decide)

-- Helper: a get_random_proxy call made when the validation interval has
-- elapsed enters refresh_proxies while holding the pool's non-reentrant
-- lock and never completes.
theorem get_random_proxy_locked_refresh_due (st : PoolState) (now : Nat)
    (env : NetEnv) (h : st.validation_interval < now - st.last_validation) :
    get_random_proxy_locked false st now env = none := by
  unfold get_random_proxy_locked
  simp [h, refresh_proxies_locked]

-- Helper: when no inline refresh is due, the call completes and is exactly
-- the selection step on the current live collection.
theorem get_random_proxy_locked_no_refresh (st : PoolState) (now : Nat)
    (env : NetEnv) (h : ¬ st.validation_interval < now - st.last_validation) :
    get_random_proxy_locked false st now env
      = some (((select_core st.proxies now).1,
               { st with proxies := (select_core st.proxies now).2 }), []) := by
  unfold get_random_proxy_locked
  simp [h]

-- Helper: when no inline refresh is due and the live collection is empty,
-- the call completes with None and an unchanged pool.
theorem get_random_proxy_locked_empty (st : PoolState) (now : Nat)
    (env : NetEnv) (h : ¬ st.validation_interval < now - st.last_validation)
    (h2 : st.proxies = []) :
    get_random_proxy_locked false st now env = some ((none, st), []) := by
  obtain ⟨ps, fp, lv, vi⟩ := st
  dsimp only at h2
  subst h2
  rw [get_random_proxy_locked_no_refresh _ _ _ h]
  rfl

/-- C5 (counterexample): on a concrete NON-empty live collection whose
validation interval has elapsed, get_random_proxy does not return an entry
at all: the inline refresh re-acquires the pool's non-reentrant lock and the
call deadlocks (modelled as none — no result, in particular not the
minimal-fail-count entry the claim requires for every non-empty live
collection). -/
theorem c5_counterexample :
    stC5x.proxies ≠ [] ∧
    stC5x.validation_interval < 100 - stC5x.last_validation ∧
    get_random_proxy_locked false stC5x 100 envOne = none := by
  decide

/-- C5 (amended): when the validation interval has elapsed, get_random_proxy
deadlocks re-acquiring the pool's non-reentrant lock inside refresh_proxies
and returns nothing at all; when no inline refresh is due the call
completes and implements the claimed contract — on an empty live collection
it returns None with the pool unchanged, and on a non-empty one it returns
the entry with the lowest fail_count, ties broken by first occurrence in
iteration order (the decomposition l₁ ++ p :: l₂ with p strictly below every
earlier entry and weakly below every later entry characterises exactly the
first entry attaining the minimum), returning a copy with last_used = now
and marking that entry's last_used in the pool. -/
theorem c5_amended :
    (∀ (st : PoolState) (now : Nat) (env : NetEnv),
      st.validation_interval < now - st.last_validation →
      get_random_proxy_locked false st now env = none) ∧
    (∀ (st : PoolState) (now : Nat) (env : NetEnv),
      ¬ st.validation_interval < now - st.last_validation →
      st.proxies = [] →
      get_random_proxy_locked false st now env = some ((none, st), [])) ∧
    (∀ (st : PoolState) (now : Nat) (env : NetEnv)
        (l₁ : List ProxyEntry) (p : ProxyEntry) (l₂ : List ProxyEntry),
      ¬ st.validation_interval < now - st.last_validation →
      st.proxies = l₁ ++ p :: l₂ →
      (∀ q ∈ l₁, p.fail_count < q.fail_count) →
      (∀ q ∈ l₂, p.fail_count ≤ q.fail_count) →
      get_random_proxy_locked false st now env
        = some ((some { p with last_used := some now },
                 { st with proxies := l₁ ++ { p with last_used := some now } :: l₂ }),
                [])) := by
  refine ⟨?_, ?_, ?_⟩
  · intro st now env h
    exact get_random_proxy_locked_refresh_due st now env h
  · intro st now env h h2
    exact get_random_proxy_locked_empty st now env h h2
  · intro st now env l₁ p l₂ h h2 h3 h4
    rw [get_random_proxy_locked_no_refresh st now env h, h2,
        select_core_first_min now l₁ p l₂ h3 h4]

/-- C5 (witness): the spec's worked example — a pool with fail-counts
[3, 1, 5, 1], validated just now so no inline refresh is due; the call
completes and returns the FIRST fail-count-1 entry (address b) with
last_used marked, updating exactly that entry in the pool. -/
theorem c5_amended_witness :
    get_random_proxy_locked false stP 100 envNone
      = some ((some ⟨"b", 0, 1, some 100, 0⟩,
               ⟨[e3, ⟨"b", 0, 1, some 100, 0⟩, e5, e1b], [], 100, 50⟩), []) :=
  c5_amended.2.2 stP 100 envNone [e3] e1 [e5, e1b] (by decide) (by decide)
    (by decide) (by decide)

/-- C6 (counterexample): a batch of count 10 against a freshly-constructed
pool of size 0 (last_validation = 0, validation interval elapsed) does NOT
return the claimed result dict.  The first step of every task's selection —
the inline refresh — re-acquires the pool's held non-reentrant lock and
deadlocks, so every future is still pending when THREAD_POOL_TIMEOUT
elapses, and as_completed's TimeoutError escapes simulate_views_batch: the
batch raises instead of returning requested=10, succeeded=0, failed=10. -/
theorem c6_counterexample :
    stDue.proxies = [] ∧
    stDue.validation_interval < 100 - stDue.last_validation ∧
    (simulate_views_batch (some "dQw4w9WgXcQ") 10 stDue 100 envNone
        (fun _ => ViewResponse.exc "unreachable")).1
      = Except.error BatchAbort.futuresTimeout ∧
    (Except.error BatchAbort.futuresTimeout : Except BatchAbort BatchResult)
      ≠ Except.ok ⟨10, 0, 10, List.replicate 10 "No available proxies"⟩ := by
  refine ⟨rfl, by decide, rfl, fun hcontra => Except.noConfusion hcontra⟩

/-- C6 (amended): only when no inline refresh is due at selection time does
a batch against an empty proxy pool complete normally; it then returns
total = count, successful = 0, failed = count with the errors list count
copies of "No available proxies" — every error citing proxy unavailability —
and leaves the pool state unchanged (the empty pool is fatal neither to the
batch nor to the pool).  When the validation interval has elapsed instead,
every task deadlocks and the batch raises (see the counterexample). -/
theorem c6_amended :
    ∀ (vid : String) (count : Nat) (st : PoolState) (now : Nat) (env : NetEnv)
      (vr : String → ViewResponse),
      ¬ st.validation_interval < now - st.last_validation →
      st.proxies = [] →
      (simulate_views_batch (some vid) count st now env vr).1
        = Except.ok ⟨count, 0, count, List.replicate count "No available proxies"⟩ ∧
      (simulate_views_batch (some vid) count st now env vr).2 = st := by
  intro vid count st now env vr h h2
  have hv : simulate_view_locked (some vid) st now env vr
      = some ((false, "No available proxies"), st) := by
    simp only [simulate_view_locked]
    rw [get_random_proxy_locked_empty st now env h h2]
  have hrun : ∀ (n : Nat),
      run_batch_futures (some vid) n st now env vr
        = ((List.replicate n (false, "No available proxies")).map FutureStatus.done, st) := by
    intro n
    induction n with
    | zero => rfl
    | succ m ih =>
      simp only [run_batch_futures, hv, ih]
      simp [List.replicate_succ]
  constructor
  · show simulate_views_batch_collect count
        (run_batch_futures (some vid) count st now env vr).1 = _
    rw [hrun count]
    unfold simulate_views_batch_collect
    rw [filterMap_futResult_done, any_isPending_done]
    show Except.ok (List.foldl batchStep ⟨count, 0, 0, []⟩
        (List.replicate count (false, "No available proxies"))) = _
    rw [batchStep_fold_replicate "No available proxies" count ⟨count, 0, 0, []⟩]
    simp
  · show (run_batch_futures (some vid) count st now env vr).2 = st
    rw [hrun count]

/-- C6 (witness): the amended theorem at the claim's concrete scenario —
count 10, empty pool validated just now (no refresh due), a proxy source
directory yielding no candidates. -/
theorem c6_amended_witness :
    (simulate_views_batch (some "dQw4w9WgXcQ") 10 stEmpty 5 envNone
        (fun _ => ViewResponse.exc "unreachable")).1
      = Except.ok ⟨10, 0, 10, List.replicate 10 "No available proxies"⟩ :=
  (c6_amended "dQw4w9WgXcQ" 10 stEmpty 5 envNone
    (fun _ => ViewResponse.exc "unreachable") (by decide) rfl).1
